import Mathlib

/-!
# pcaudiolib: the XAudio2 / FAudio output backend (`src/xaudio2.cpp`)

A shallow embedding of the backend object and of its operations
`open`, `close`, `destroy`, `drain`, `flush`, `write` and of the constructor
`create_xaudio2_object`.

The backend only sequences calls into the native voice API.  Every native
call the C++ code makes is recorded, in order and with its handle arguments,
as an `Event`; what the native side answers (an `HRESULT`, the pointer it
writes through an out-parameter, the voice state a poll reports) is supplied
by an environment record, one answer per call site.  Pointers are natural
numbers and `0` is `NULL`.
-/

namespace XAudio2

/-! ## Native scalar types -/

/-- A native pointer; `0` is `NULL`. -/
abbrev Ptr := Nat

/-- A 32-bit signed `HRESULT`. -/
abbrev HRESULT := Int

/-- The value of `enum audio_object_format` (declared in `audio.h`). -/
abbrev audio_object_format := Nat

/-- Reinterpret a 32-bit pattern as a signed `long`. -/
def toSigned32 (x : Nat) : Int :=
  if x % 2 ^ 32 < 2 ^ 31 then (x % 2 ^ 32 : Nat) else ((x % 2 ^ 32 : Nat) : Int) - 2 ^ 32

def S_OK : HRESULT := 0

/-- Embeds `FAILED(hr)` of `winerror.h`: `((HRESULT)(hr)) < 0`. -/
def FAILED (hr : HRESULT) : Bool := decide (hr < 0)

/-- Embeds `SUCCEEDED(hr)` of `winerror.h`: `((HRESULT)(hr)) >= 0`. -/
def SUCCEEDED (hr : HRESULT) : Bool := decide (0 ≤ hr)

/-- Embeds `ERROR_ALREADY_INITIALIZED` of `winerror.h`. -/
def ERROR_ALREADY_INITIALIZED : Nat := 1247

/-- Embeds `FACILITY_WIN32` of `winerror.h`. -/
def FACILITY_WIN32 : Nat := 7

/-- Embeds `HRESULT_FROM_WIN32(x)` of `winerror.h`:
`(HRESULT)(x) <= 0 ? (HRESULT)(x)
   : (HRESULT)(((x) & 0x0000FFFF) | (FACILITY_WIN32 << 16) | 0x80000000)`. -/
def HRESULT_FROM_WIN32 (x : Nat) : HRESULT :=
  if toSigned32 x ≤ 0 then toSigned32 x
  else toSigned32 (((x &&& 0x0000FFFF) ||| (FACILITY_WIN32 <<< 16)) ||| 0x80000000)

/-! ## Native structures -/

/-- Embeds `XAUDIO2_BUFFER` (`FAudioBuffer`). -/
structure XAUDIO2_BUFFER where
  Flags : Nat := 0
  AudioBytes : Nat := 0
  pAudioData : Ptr := 0
  PlayBegin : Nat := 0
  PlayLength : Nat := 0
  LoopBegin : Nat := 0
  LoopLength : Nat := 0
  LoopCount : Nat := 0
  pContext : Ptr := 0
  deriving DecidableEq, Repr

/-- Embeds `XAUDIO2_VOICE_STATE` (`FAudioVoiceState`). -/
structure XAUDIO2_VOICE_STATE where
  pCurrentBufferContext : Ptr := 0
  BuffersQueued : Nat := 0
  SamplesPlayed : Nat := 0
  deriving DecidableEq, Repr

/-! ## The trace of native calls -/

/-- One call made by the backend into the native layer, with the handle
arguments it passes and, for calls that report something back, what the
native side reported. -/
inductive Event where
  | CoInitialize
  | CoUninitialize
  /-- Call `XAudio2Create(&audio, 0, XAUDIO2_DEFAULT_PROCESSOR)` / `FAudioCreate`. -/
  | XAudio2Create (hr : HRESULT) (audio : Ptr)
  /-- Call `audio->Release()` / `FAudio_Release(audio)`. -/
  | Release (audio : Ptr)
  /-- Call `malloc(sizeof(struct xaudio2_object))`. -/
  | malloc (result : Ptr)
  /-- Call `str2wcs(device)`. -/
  | str2wcs (device : Ptr) (result : Ptr)
  /-- Call `free(p)` of a string. -/
  | free (p : Ptr)
  /-- Call `free(self)`. -/
  | free_self
  /-- Call `audio->CreateMasteringVoice(&self->mastering)`. -/
  | CreateMasteringVoice (audio : Ptr) (hr : HRESULT) (mastering : Ptr)
  /-- Call `CreateWaveFormat(format, rate, channels, &self->format)`. -/
  | CreateWaveFormat (format : audio_object_format) (rate : Nat) (channels : Nat)
      (hr : HRESULT) (wfmt : Ptr)
  /-- Call `audio->CreateSourceVoice(&self->source, self->format)`. -/
  | CreateSourceVoice (audio : Ptr) (format : Ptr) (hr : HRESULT) (source : Ptr)
  /-- Call `voice->DestroyVoice()` / `FAudioVoice_DestroyVoice(voice)`. -/
  | DestroyVoice (voice : Ptr)
  | CoTaskMemFree (p : Ptr)
  /-- Call `source->SubmitSourceBuffer(&buffer)`. -/
  | SubmitSourceBuffer (source : Ptr) (buffer : XAUDIO2_BUFFER)
  /-- Call `source->Start(0)`. -/
  | Start (source : Ptr)
  | Sleep (ms : Nat)
  /-- Call `source->GetState(&state)`. -/
  | GetState (source : Ptr) (state : XAUDIO2_VOICE_STATE)
  deriving DecidableEq, Repr

/-! ## The object -/

/-- The functions a backend installs in its dispatch table. -/
inductive Fn where
  | xaudio2_object_open
  | xaudio2_object_close
  | xaudio2_object_destroy
  | xaudio2_object_write
  | xaudio2_object_drain
  | xaudio2_object_flush
  | windows_hresult_strerror
  deriving DecidableEq, Repr

/-- Embeds `struct audio_object` (declared in `audio_priv.h`): the dispatch table. -/
structure audio_object where
  open_ : Fn
  close : Fn
  destroy : Fn
  write : Fn
  drain : Fn
  flush : Fn
  strerror : Fn
  deriving DecidableEq, Repr

/-- Embeds `struct xaudio2_object`. -/
structure xaudio2_object where
  vtable : audio_object
  audio : Ptr
  mastering : Ptr
  source : Ptr
  format : Ptr
  devicename : Ptr
  deriving DecidableEq, Repr

/-! ## `xaudio2_object_close` -/

/-- Embeds `xaudio2_object_close`: three null-checked releases, in source order. -/
def xaudio2_object_close (self : xaudio2_object) : xaudio2_object × List Event :=
  let r1 : xaudio2_object × List Event :=
    if self.source ≠ 0 then
      ({ self with source := 0 }, [Event.DestroyVoice self.source])
    else (self, [])
  let r2 : xaudio2_object × List Event :=
    if r1.1.format ≠ 0 then
      ({ r1.1 with format := 0 }, r1.2 ++ [Event.CoTaskMemFree r1.1.format])
    else r1
  let r3 : xaudio2_object × List Event :=
    if r2.1.mastering ≠ 0 then
      ({ r2.1 with mastering := 0 }, r2.2 ++ [Event.DestroyVoice r2.1.mastering])
    else r2
  r3

/-! ## `xaudio2_object_open` -/

/-- What the native layer answers to the three calls `open` can make: the
`HRESULT` and the pointer found in the out-parameter after the call. -/
structure OpenEnv where
  CreateMasteringVoice : HRESULT × Ptr
  CreateWaveFormat : HRESULT × Ptr
  CreateSourceVoice : HRESULT × Ptr
  deriving DecidableEq, Repr

/-- The `error:` label of `xaudio2_object_open`. -/
def open_error (hr : HRESULT) (self : xaudio2_object) (t : List Event) :
    HRESULT × xaudio2_object × List Event :=
  let c := xaudio2_object_close self
  (hr, c.1, t ++ c.2)

/-- Embeds `xaudio2_object_open`. -/
def xaudio2_object_open (env : OpenEnv) (self : xaudio2_object)
    (format : audio_object_format) (rate : Nat) (channels : Nat) :
    HRESULT × xaudio2_object × List Event :=
  if self.mastering ≠ 0 then
    (HRESULT_FROM_WIN32 ERROR_ALREADY_INITIALIZED, self, [])
  else
    let hr1 := env.CreateMasteringVoice.1
    let self1 := { self with mastering := env.CreateMasteringVoice.2 }
    let t1 := [Event.CreateMasteringVoice self.audio hr1 self1.mastering]
    if FAILED hr1 then open_error hr1 self1 t1
    else
      let hr2 := env.CreateWaveFormat.1
      let self2 := { self1 with format := env.CreateWaveFormat.2 }
      let t2 := t1 ++ [Event.CreateWaveFormat format rate channels hr2 self2.format]
      if FAILED hr2 then open_error hr2 self2 t2
      else
        let hr3 := env.CreateSourceVoice.1
        let self3 := { self2 with source := env.CreateSourceVoice.2 }
        let t3 := t2 ++ [Event.CreateSourceVoice self2.audio self2.format hr3 self3.source]
        if FAILED hr3 then open_error hr3 self3 t3
        else (S_OK, self3, t3)

/-! ## `xaudio2_object_drain`, `xaudio2_object_flush` -/

/-- Embeds `xaudio2_object_drain`. -/
def xaudio2_object_drain (self : xaudio2_object) : HRESULT × xaudio2_object × List Event :=
  (S_OK, self, [])

/-- Embeds `xaudio2_object_flush`. -/
def xaudio2_object_flush (self : xaudio2_object) : HRESULT × xaudio2_object × List Event :=
  (S_OK, self, [])

/-! ## `xaudio2_object_write` -/

/-- What the native layer answers during one `write`: the results of
`SubmitSourceBuffer` and `Start`, and the state reported by the `i`-th
`GetState` poll. -/
structure WriteEnv where
  SubmitSourceBuffer : HRESULT
  Start : HRESULT
  GetState : Nat → XAUDIO2_VOICE_STATE

/-- The `while (true)` loop of `xaudio2_object_write`, started at poll number
`i`, with at most `fuel` iterations; `none` when the loop is still running
after `fuel` iterations. -/
def poll (GetState : Nat → XAUDIO2_VOICE_STATE) (source : Ptr) :
    Nat → Nat → Option (List Event)
  | 0, _ => none
  | fuel + 1, i =>
    let state := GetState i
    let t := [Event.Sleep 10, Event.GetState source state]
    if state.pCurrentBufferContext = 0 ∧ state.BuffersQueued = 0 then some t
    else (poll GetState source fuel (i + 1)).map (fun rest => t ++ rest)

/-- Embeds `xaudio2_object_write`; `none` when the poll loop has not finished within
`fuel` iterations. -/
def xaudio2_object_write (fuel : Nat) (env : WriteEnv) (self : xaudio2_object)
    (data : Ptr) (bytes : Nat) : Option (HRESULT × xaudio2_object × List Event) :=
  let buffer : XAUDIO2_BUFFER := { AudioBytes := bytes % 2 ^ 32, pAudioData := data }
  let hr0 : HRESULT := S_OK
  let r1 : HRESULT × List Event :=
    if SUCCEEDED hr0 then (env.SubmitSourceBuffer, [Event.SubmitSourceBuffer self.source buffer])
    else (hr0, [])
  let r2 : HRESULT × List Event :=
    if SUCCEEDED r1.1 then (env.Start, r1.2 ++ [Event.Start self.source])
    else r1
  if SUCCEEDED r2.1 then
    (poll env.GetState self.source fuel 0).map (fun t => (r2.1, self, r2.2 ++ t))
  else some (r2.1, self, r2.2)

/-! ## `xaudio2_object_destroy` -/

/-- Embeds `xaudio2_object_destroy`: the object is gone afterwards, only the calls
remain. -/
def xaudio2_object_destroy (self : xaudio2_object) : List Event :=
  [Event.Release self.audio, Event.free self.devicename, Event.free_self,
   Event.CoUninitialize]

/-! ## `create_xaudio2_object` -/

/-- What the native layer answers during `create_xaudio2_object`: the result
of `XAudio2Create` with the pointer left in `audio`, the address `malloc`
returns, and the string `str2wcs` returns. -/
structure CreateEnv where
  XAudio2Create : HRESULT × Ptr
  malloc : Ptr
  str2wcs : Ptr
  deriving DecidableEq, Repr

/-- Embeds `create_xaudio2_object`; `none` is the `NULL` return. -/
def create_xaudio2_object (env : CreateEnv) (device : Ptr) (_application_name : Ptr)
    (_description : Ptr) : Option xaudio2_object × List Event :=
  let t0 := [Event.CoInitialize]
  let hr := env.XAudio2Create.1
  let audio := env.XAudio2Create.2
  let t1 := t0 ++ [Event.XAudio2Create hr audio]
  if FAILED hr ∨ audio = 0 then
    let t2 := if audio ≠ 0 then t1 ++ [Event.Release audio] else t1
    (none, t2 ++ [Event.CoUninitialize])
  else
    let t2 := t1 ++ [Event.malloc env.malloc]
    if env.malloc = 0 then (none, t2)
    else
      let r : Ptr × List Event :=
        if device ≠ 0 then (env.str2wcs, t2 ++ [Event.str2wcs device env.str2wcs])
        else (0, t2)
      (some
        { vtable :=
            { open_ := Fn.xaudio2_object_open
              close := Fn.xaudio2_object_close
              destroy := Fn.xaudio2_object_destroy
              write := Fn.xaudio2_object_write
              drain := Fn.xaudio2_object_drain
              flush := Fn.xaudio2_object_flush
              strerror := Fn.windows_hresult_strerror }
          audio := audio
          mastering := 0
          source := 0
          format := 0
          devicename := r.1 },
       r.2)

/-! ## Sequences of calls on one object -/

/-- One call on the object after its creation, with the answers the native
layer gives during it (and, for `write`, the number of poll iterations
observed). -/
inductive Op where
  | Open (env : OpenEnv) (format : audio_object_format) (rate : Nat) (channels : Nat)
  | Close
  | Write (fuel : Nat) (env : WriteEnv) (data : Ptr) (bytes : Nat)
  | Drain
  | Flush

/-- Run one call; `none` when a `write` is still polling. -/
def step (self : xaudio2_object) : Op → Option (xaudio2_object × List Event)
  | Op.Open env format rate channels =>
    let r := xaudio2_object_open env self format rate channels
    some (r.2.1, r.2.2)
  | Op.Close => some (xaudio2_object_close self)
  | Op.Write fuel env data bytes =>
    (xaudio2_object_write fuel env self data bytes).map (fun r => (r.2.1, r.2.2))
  | Op.Drain => some ((xaudio2_object_drain self).2.1, (xaudio2_object_drain self).2.2)
  | Op.Flush => some ((xaudio2_object_flush self).2.1, (xaudio2_object_flush self).2.2)

/-- Run a sequence of calls from `self`, collecting the native calls made. -/
def run : xaudio2_object → List Op → Option (xaudio2_object × List Event)
  | self, [] => some (self, [])
  | self, op :: ops =>
    match step self op with
    | none => none
    | some r1 =>
      match run r1.1 ops with
      | none => none
      | some r2 => some (r2.1, r1.2 ++ r2.2)

/-! ## Properties of states and traces -/

/-- The closed state: no mastering voice, no source voice, no wave format. -/
def closed (self : xaudio2_object) : Prop :=
  self.mastering = 0 ∧ self.source = 0 ∧ self.format = 0

instance (self : xaudio2_object) : Decidable (closed self) := by
  unfold closed; infer_instance

/-- The open state: mastering voice, source voice and wave format all set. -/
def isOpen (self : xaudio2_object) : Prop :=
  self.mastering ≠ 0 ∧ self.source ≠ 0 ∧ self.format ≠ 0

instance (self : xaudio2_object) : Decidable (isOpen self) := by
  unfold isOpen; infer_instance

/-- The drained voice state tested by `write`. -/
def drained (state : XAUDIO2_VOICE_STATE) : Prop :=
  state.pCurrentBufferContext = 0 ∧ state.BuffersQueued = 0

instance (state : XAUDIO2_VOICE_STATE) : Decidable (drained state) := by
  unfold drained; infer_instance

/-- A native create call keeps the contract of the voice API: it leaves a
non-null handle exactly when it succeeds. -/
def createContract (r : HRESULT × Ptr) : Prop :=
  SUCCEEDED r.1 = true ↔ r.2 ≠ 0

instance (r : HRESULT × Ptr) : Decidable (createContract r) := by
  unfold createContract; infer_instance

/-- The three create calls of an `open` keep the contract. -/
def OpenEnv.contract (env : OpenEnv) : Prop :=
  createContract env.CreateMasteringVoice ∧ createContract env.CreateWaveFormat ∧
    createContract env.CreateSourceVoice

instance (env : OpenEnv) : Decidable env.contract := by
  unfold OpenEnv.contract; infer_instance

/-- Every `open` of the sequence is answered within the contract. -/
def Op.contract : Op → Prop
  | Op.Open env _ _ _ => env.contract
  | _ => True

instance (op : Op) : Decidable op.contract := by
  cases op <;> unfold Op.contract <;> infer_instance

/-- The event is a native call on a null engine, voice or wave format. -/
def Event.onNull : Event → Bool
  | Event.Release audio => decide (audio = 0)
  | Event.CreateMasteringVoice audio _ _ => decide (audio = 0)
  | Event.CreateSourceVoice audio format _ _ => decide (audio = 0) || decide (format = 0)
  | Event.DestroyVoice voice => decide (voice = 0)
  | Event.CoTaskMemFree p => decide (p = 0)
  | Event.SubmitSourceBuffer source _ => decide (source = 0)
  | Event.Start source => decide (source = 0)
  | Event.GetState source _ => decide (source = 0)
  | _ => false

/-- A native handle that has been handed out to the backend and that the
backend has not released yet, by kind. -/
inductive Handle where
  | engine (p : Ptr)
  | voice (p : Ptr)
  | wfmt (p : Ptr)
  deriving DecidableEq, Repr

/-- A create call hands out a handle when it succeeds with a non-null
pointer. -/
def acquire (h : Handle) (hr : HRESULT) (p : Ptr) (live : List Handle) : List Handle :=
  if SUCCEEDED hr = true ∧ p ≠ 0 then h :: live else live

/-- Releasing a handle that is not live (never handed out, or released
already) is an error. -/
def release (h : Handle) (live : List Handle) : Option (List Handle) :=
  if h ∈ live then some (live.erase h) else none

/-- The effect of one native call on the collection of live handles. -/
def applyEvent (live : List Handle) : Event → Option (List Handle)
  | Event.XAudio2Create hr p => some (acquire (Handle.engine p) hr p live)
  | Event.CreateMasteringVoice _ hr p => some (acquire (Handle.voice p) hr p live)
  | Event.CreateWaveFormat _ _ _ hr p => some (acquire (Handle.wfmt p) hr p live)
  | Event.CreateSourceVoice _ _ hr p => some (acquire (Handle.voice p) hr p live)
  | Event.Release p => release (Handle.engine p) live
  | Event.DestroyVoice p => release (Handle.voice p) live
  | Event.CoTaskMemFree p => release (Handle.wfmt p) live
  | _ => some live

/-- The handles live after a trace (handed out by a create call of the trace
or in `live` before it, and not released by a later call of the trace);
`none` when the trace releases a handle that is not live. -/
def replayFrom : List Handle → List Event → Option (List Handle)
  | live, [] => some live
  | live, e :: es =>
    match applyEvent live e with
    | none => none
    | some l => replayFrom l es

/-- The handles live after a trace that starts with nothing live. -/
def replay (t : List Event) : Option (List Handle) := replayFrom [] t

/-- The voice and wave-format handles stored in the object's fields. -/
def stored (self : xaudio2_object) : List Handle :=
  (if self.source ≠ 0 then [Handle.voice self.source] else []) ++
  (if self.format ≠ 0 then [Handle.wfmt self.format] else []) ++
  (if self.mastering ≠ 0 then [Handle.voice self.mastering] else [])

/-- The calls made by `n` consecutive iterations of the poll loop of `write`,
starting at poll number `i`: each iteration sleeps 10 ms, then polls. -/
def pollEvents (GetState : Nat → XAUDIO2_VOICE_STATE) (source : Ptr) : Nat → Nat → List Event
  | _, 0 => []
  | i, n + 1 =>
    [Event.Sleep 10, Event.GetState source (GetState i)] ++
      pollEvents GetState source (i + 1) n

/-- The event is one of the calls that bracket the life of the object: COM
initialisation and the creation and release of the engine. -/
def Event.lifecycle : Event → Bool
  | Event.CoInitialize => true
  | Event.CoUninitialize => true
  | Event.XAudio2Create _ _ => true
  | Event.Release _ => true
  | _ => false

/-- The event is one of the calls `write` makes. -/
def Event.isPlayback : Event → Bool
  | Event.SubmitSourceBuffer _ _ => true
  | Event.Start _ => true
  | Event.Sleep _ => true
  | Event.GetState _ _ => true
  | _ => false

/-- The event is a `SubmitSourceBuffer` call. -/
def Event.isSubmit : Event → Bool
  | Event.SubmitSourceBuffer _ _ => true
  | _ => false

/-- What a call has to preserve: the object is closed or open, the engine
handle stays, the live handles are the stored ones (above whatever else is
live), and no life-cycle call is made. -/
def Preserved (rest : List Handle) (self : xaudio2_object)
    (r : xaudio2_object × List Event) : Prop :=
  (closed r.1 ∨ isOpen r.1) ∧ r.1.audio = self.audio ∧
    replayFrom (stored self ++ rest) r.2 = some (stored r.1 ++ rest) ∧
    r.2.filter Event.lifecycle = []

/-! ## Concrete objects and native answers used to instantiate the theorems -/

/-- Submit and start succeed; the voice reports one queued buffer on the
first two polls and is drained from the third poll on. -/
def writeDrainsAtTwo : WriteEnv :=
  { SubmitSourceBuffer := 0, Start := 0,
    GetState := fun i => if i < 2 then { BuffersQueued := 1 } else { } }

/-- The buffer is rejected (`E_INVALIDARG`). -/
def writeSubmitFails : WriteEnv :=
  { SubmitSourceBuffer := -2147024809, Start := 0, GetState := fun _ => { } }

/-- The buffer is accepted but the voice cannot be started (`E_FAIL`). -/
def writeStartFails : WriteEnv :=
  { SubmitSourceBuffer := 0, Start := -2147467259, GetState := fun _ => { } }


/-- The dispatch table installed by `create_xaudio2_object`. -/
def xaudio2_vtable : audio_object :=
  { open_ := Fn.xaudio2_object_open
    close := Fn.xaudio2_object_close
    destroy := Fn.xaudio2_object_destroy
    write := Fn.xaudio2_object_write
    drain := Fn.xaudio2_object_drain
    flush := Fn.xaudio2_object_flush
    strerror := Fn.windows_hresult_strerror }

/-- A freshly created object: engine at `100`, device name at `7`. -/
def sampleClosed : xaudio2_object :=
  { vtable := xaudio2_vtable, audio := 100, mastering := 0, source := 0, format := 0,
    devicename := 7 }

/-- An open object: mastering voice `1`, wave format `2`, source voice `3`. -/
def sampleOpen : xaudio2_object :=
  { vtable := xaudio2_vtable, audio := 100, mastering := 1, source := 3, format := 2,
    devicename := 7 }

/-- All three create calls succeed, with handles `1`, `2`, `3`. -/
def envAllOk : OpenEnv :=
  { CreateMasteringVoice := (0, 1), CreateWaveFormat := (0, 2), CreateSourceVoice := (0, 3) }

/-- The mastering voice cannot be created (`E_FAIL`). -/
def envMasteringFails : OpenEnv :=
  { CreateMasteringVoice := (-2147467259, 0), CreateWaveFormat := (0, 2),
    CreateSourceVoice := (0, 3) }

/-- The wave format is rejected (`E_INVALIDARG`). -/
def envFormatFails : OpenEnv :=
  { CreateMasteringVoice := (0, 1), CreateWaveFormat := (-2147024809, 0),
    CreateSourceVoice := (0, 3) }

/-- The source voice cannot be created (`E_FAIL`). -/
def envSourceFails : OpenEnv :=
  { CreateMasteringVoice := (0, 1), CreateWaveFormat := (0, 2),
    CreateSourceVoice := (-2147467259, 0) }

/-- Engine creation succeeds with the engine at `100`, the object is
allocated at `64`, the device name is converted to the string at `7`. -/
def createOk : CreateEnv :=
  { XAudio2Create := (0, 100), malloc := 64, str2wcs := 7 }

/-- Engine creation succeeds but `malloc` returns `NULL`. -/
def createNoMemory : CreateEnv :=
  { XAudio2Create := (0, 100), malloc := 0, str2wcs := 7 }

/-- Engine creation fails (`E_FAIL`) but leaves an engine pointer behind. -/
def createEngineFails : CreateEnv :=
  { XAudio2Create := (-2147467259, 100), malloc := 64, str2wcs := 7 }

/-- The calls made by `create_xaudio2_object createOk 9 0 0`. -/
def sampleCreateTrace : List Event :=
  [Event.CoInitialize, Event.XAudio2Create 0 100, Event.malloc 64, Event.str2wcs 9 7]

/-- The calls made by a `write` whose voice is drained at the third poll. -/
def sampleWriteTrace (source : Ptr) : List Event :=
  [Event.SubmitSourceBuffer source { AudioBytes := 4096, pAudioData := 500 },
   Event.Start source,
   Event.Sleep 10, Event.GetState source { BuffersQueued := 1 },
   Event.Sleep 10, Event.GetState source { BuffersQueued := 1 },
   Event.Sleep 10, Event.GetState source { }]

/-- The calls made by a successful `open` of `sampleClosed`. -/
def sampleOpenTrace : List Event :=
  [Event.CreateMasteringVoice 100 0 1, Event.CreateWaveFormat 3 44100 2 0 2,
   Event.CreateSourceVoice 100 2 0 3]

/-- A failed open, a successful open, a refused second open, a write, a drain
and a flush. -/
def sampleSession : List Op :=
  [Op.Open envSourceFails 3 44100 2, Op.Open envAllOk 3 44100 2, Op.Open envAllOk 3 44100 2,
   Op.Write 5 writeDrainsAtTwo 500 4096, Op.Drain, Op.Flush]

/-- The calls made by `sampleSession` on `sampleClosed`. -/
def sampleSessionTrace : List Event :=
  [Event.CreateMasteringVoice 100 0 1, Event.CreateWaveFormat 3 44100 2 0 2,
   Event.CreateSourceVoice 100 2 (-2147467259) 0, Event.CoTaskMemFree 2,
   Event.DestroyVoice 1] ++ sampleOpenTrace ++ sampleWriteTrace 3

/-- The calls made by the three releases of `close` on `sampleOpen`. -/
def sampleCloseTrace : List Event :=
  [Event.DestroyVoice 3, Event.CoTaskMemFree 2, Event.DestroyVoice 1]

/-! ## Basic facts -/

theorem FAILED_eq_not_SUCCEEDED (hr : HRESULT) : FAILED hr = !SUCCEEDED hr := by
  unfold FAILED SUCCEEDED
  by_cases h : hr < 0
  · have h0 : ¬ (0 ≤ hr) := not_le.mpr h
    simp [h, h0]
  · have h0 : 0 ≤ hr := not_lt.mp h
    simp [h, h0]

theorem FAILED_of_SUCCEEDED {hr : HRESULT} (h : SUCCEEDED hr = true) : FAILED hr = false := by
  simp [FAILED_eq_not_SUCCEEDED, h]

/-- The state `close` leaves and the calls it makes, in closed form. -/
theorem close_eq (self : xaudio2_object) :
    xaudio2_object_close self =
      ({ self with mastering := 0, source := 0, format := 0 },
       (if self.source ≠ 0 then [Event.DestroyVoice self.source] else []) ++
       (if self.format ≠ 0 then [Event.CoTaskMemFree self.format] else []) ++
       (if self.mastering ≠ 0 then [Event.DestroyVoice self.mastering] else [])) := by
  obtain ⟨v, a, m, s, f, d⟩ := self
  unfold xaudio2_object_close
  by_cases hs : s = 0 <;> by_cases hf : f = 0 <;> by_cases hm : m = 0 <;> simp [hs, hf, hm]

/-! ## C1 – C3: `xaudio2_object_open` -/

/-- C1: on a closed object, when `CreateMasteringVoice`, `CreateWaveFormat` and
`CreateSourceVoice` all succeed, `xaudio2_object_open` returns `S_OK`, makes
exactly these three native calls in this order (the wave format built from
the given format, rate and channels; the source voice created from that wave
format) and stores the three resulting handles in `mastering`, `format` and
`source`. -/
theorem open_success (env : OpenEnv) (self : xaudio2_object)
    (format : audio_object_format) (rate channels : Nat)
    (hc : closed self)
    (h1 : SUCCEEDED env.CreateMasteringVoice.1 = true)
    (h2 : SUCCEEDED env.CreateWaveFormat.1 = true)
    (h3 : SUCCEEDED env.CreateSourceVoice.1 = true) :
    xaudio2_object_open env self format rate channels =
      (S_OK,
       { self with
           mastering := env.CreateMasteringVoice.2
           format := env.CreateWaveFormat.2
           source := env.CreateSourceVoice.2 },
       [Event.CreateMasteringVoice self.audio env.CreateMasteringVoice.1
          env.CreateMasteringVoice.2,
        Event.CreateWaveFormat format rate channels env.CreateWaveFormat.1
          env.CreateWaveFormat.2,
        Event.CreateSourceVoice self.audio env.CreateWaveFormat.2
          env.CreateSourceVoice.1 env.CreateSourceVoice.2]) := by
  obtain ⟨hm, -, -⟩ := hc
  unfold xaudio2_object_open
  simp [hm, FAILED_of_SUCCEEDED h1, FAILED_of_SUCCEEDED h2, FAILED_of_SUCCEEDED h3]

/-- C1 at a concrete closed object with all three create calls succeeding. -/
theorem open_success_witness :
    closed sampleClosed ∧
    xaudio2_object_open envAllOk sampleClosed 3 44100 2 =
      (0, sampleOpen,
       [Event.CreateMasteringVoice 100 0 1, Event.CreateWaveFormat 3 44100 2 0 2,
        Event.CreateSourceVoice 100 2 0 3]) :=
  ⟨by decide,
   open_success envAllOk sampleClosed 3 44100 2 (by decide) (by decide) (by decide)
     (by decide)⟩

/-- C2: on a closed object, when one of the three native steps of
`xaudio2_object_open` fails, open returns the `HRESULT` of the first failing
step, makes no later create call, releases (source voice, then wave format,
then mastering voice) every non-null handle the calls so far left in the
object, and leaves the object exactly as it was: `mastering`, `source` and
`format` null, `audio`, `devicename` and the dispatch table unchanged. -/
theorem open_failure_atomic (env : OpenEnv) (self : xaudio2_object)
    (format : audio_object_format) (rate channels : Nat) (hc : closed self) :
    (FAILED env.CreateMasteringVoice.1 = true →
      xaudio2_object_open env self format rate channels =
        (env.CreateMasteringVoice.1, self,
         [Event.CreateMasteringVoice self.audio env.CreateMasteringVoice.1
            env.CreateMasteringVoice.2] ++
         (if env.CreateMasteringVoice.2 ≠ 0 then
            [Event.DestroyVoice env.CreateMasteringVoice.2] else []))) ∧
    (SUCCEEDED env.CreateMasteringVoice.1 = true → FAILED env.CreateWaveFormat.1 = true →
      xaudio2_object_open env self format rate channels =
        (env.CreateWaveFormat.1, self,
         [Event.CreateMasteringVoice self.audio env.CreateMasteringVoice.1
            env.CreateMasteringVoice.2,
          Event.CreateWaveFormat format rate channels env.CreateWaveFormat.1
            env.CreateWaveFormat.2] ++
         (if env.CreateWaveFormat.2 ≠ 0 then
            [Event.CoTaskMemFree env.CreateWaveFormat.2] else []) ++
         (if env.CreateMasteringVoice.2 ≠ 0 then
            [Event.DestroyVoice env.CreateMasteringVoice.2] else []))) ∧
    (SUCCEEDED env.CreateMasteringVoice.1 = true → SUCCEEDED env.CreateWaveFormat.1 = true →
      FAILED env.CreateSourceVoice.1 = true →
      xaudio2_object_open env self format rate channels =
        (env.CreateSourceVoice.1, self,
         [Event.CreateMasteringVoice self.audio env.CreateMasteringVoice.1
            env.CreateMasteringVoice.2,
          Event.CreateWaveFormat format rate channels env.CreateWaveFormat.1
            env.CreateWaveFormat.2,
          Event.CreateSourceVoice self.audio env.CreateWaveFormat.2
            env.CreateSourceVoice.1 env.CreateSourceVoice.2] ++
         (if env.CreateSourceVoice.2 ≠ 0 then
            [Event.DestroyVoice env.CreateSourceVoice.2] else []) ++
         (if env.CreateWaveFormat.2 ≠ 0 then
            [Event.CoTaskMemFree env.CreateWaveFormat.2] else []) ++
         (if env.CreateMasteringVoice.2 ≠ 0 then
            [Event.DestroyVoice env.CreateMasteringVoice.2] else []))) := by
  obtain ⟨v, a, m, s, f, d⟩ := self
  obtain ⟨hm, hs, hf⟩ := hc
  simp only at hm hs hf
  subst hm hs hf
  refine ⟨?_, ?_, ?_⟩
  · intro h1
    unfold xaudio2_object_open open_error
    simp [h1, close_eq]
  · intro h1 h2
    unfold xaudio2_object_open open_error
    simp [FAILED_of_SUCCEEDED h1, h2, close_eq]
  · intro h1 h2 h3
    unfold xaudio2_object_open open_error
    simp [FAILED_of_SUCCEEDED h1, FAILED_of_SUCCEEDED h2, h3, close_eq]

/-- C2 at a concrete closed object, once for each failing step. -/
theorem open_failure_atomic_witness :
    closed sampleClosed ∧
    xaudio2_object_open envMasteringFails sampleClosed 3 44100 2 =
      (-2147467259, sampleClosed, [Event.CreateMasteringVoice 100 (-2147467259) 0]) ∧
    xaudio2_object_open envFormatFails sampleClosed 3 44100 2 =
      (-2147024809, sampleClosed,
       [Event.CreateMasteringVoice 100 0 1,
        Event.CreateWaveFormat 3 44100 2 (-2147024809) 0, Event.DestroyVoice 1]) ∧
    xaudio2_object_open envSourceFails sampleClosed 3 44100 2 =
      (-2147467259, sampleClosed,
       [Event.CreateMasteringVoice 100 0 1, Event.CreateWaveFormat 3 44100 2 0 2,
        Event.CreateSourceVoice 100 2 (-2147467259) 0, Event.CoTaskMemFree 2,
        Event.DestroyVoice 1]) :=
  ⟨by decide,
   (open_failure_atomic envMasteringFails sampleClosed 3 44100 2 (by decide)).1 (by decide),
   (open_failure_atomic envFormatFails sampleClosed 3 44100 2 (by decide)).2.1 (by decide)
     (by decide),
   (open_failure_atomic envSourceFails sampleClosed 3 44100 2 (by decide)).2.2 (by decide)
     (by decide) (by decide)⟩

/-- C3: on an object whose mastering handle is non-null, `xaudio2_object_open`
returns `HRESULT_FROM_WIN32(ERROR_ALREADY_INITIALIZED)` (the value
`0x800704DF`, a failure code), makes no native call and leaves every field of
the object unchanged. -/
theorem open_already_initialized (env : OpenEnv) (self : xaudio2_object)
    (format : audio_object_format) (rate channels : Nat) (h : self.mastering ≠ 0) :
    xaudio2_object_open env self format rate channels =
      (HRESULT_FROM_WIN32 ERROR_ALREADY_INITIALIZED, self, []) ∧
    FAILED (HRESULT_FROM_WIN32 ERROR_ALREADY_INITIALIZED) = true ∧
    HRESULT_FROM_WIN32 ERROR_ALREADY_INITIALIZED = toSigned32 0x800704DF := by
  refine ⟨?_, by decide, by decide⟩
  unfold xaudio2_object_open
  simp [h]

/-- C3 at a concrete open object. -/
theorem open_already_initialized_witness :
    sampleOpen.mastering ≠ 0 ∧
    xaudio2_object_open envAllOk sampleOpen 3 44100 2 = (-2147023649, sampleOpen, []) :=
  ⟨by decide, (open_already_initialized envAllOk sampleOpen 3 44100 2 (by decide)).1⟩

/-! ## C6: `xaudio2_object_close` -/

/-- C6: from every state, `xaudio2_object_close` leaves `mastering`, `source`
and `format` null and `audio`, `devicename` and the dispatch table unchanged;
its native calls are exactly one release per field that was non-null, the
source voice first, then the wave format, the mastering voice last, and none
for a null field; closing again changes nothing and makes no native call. -/
theorem close_releases_and_is_idempotent (self : xaudio2_object) :
    (xaudio2_object_close self).1 =
      { vtable := self.vtable, audio := self.audio, mastering := 0, source := 0,
        format := 0, devicename := self.devicename } ∧
    (xaudio2_object_close self).2 =
      (if self.source ≠ 0 then [Event.DestroyVoice self.source] else []) ++
      (if self.format ≠ 0 then [Event.CoTaskMemFree self.format] else []) ++
      (if self.mastering ≠ 0 then [Event.DestroyVoice self.mastering] else []) ∧
    xaudio2_object_close (xaudio2_object_close self).1 = ((xaudio2_object_close self).1, []) := by
  refine ⟨?_, ?_, ?_⟩
  · rw [close_eq]
  · rw [close_eq]
  · rw [close_eq self, close_eq]
    simp

/-! ## C4, C5: `xaudio2_object_write` -/

/-- The poll loop returns exactly at the first drained poll. -/
theorem poll_eq (GetState : Nat → XAUDIO2_VOICE_STATE) (source : Ptr) :
    ∀ (k fuel i : Nat), drained (GetState (i + k)) →
      (∀ j, j < k → ¬ drained (GetState (i + j))) →
      poll GetState source fuel i =
        if k < fuel then some (pollEvents GetState source i (k + 1)) else none := by
  intro k
  induction k with
  | zero =>
    intro fuel i hk _
    cases fuel with
    | zero => simp [poll]
    | succ f =>
      have hd : (GetState i).pCurrentBufferContext = 0 ∧ (GetState i).BuffersQueued = 0 := by
        simpa [drained] using hk
      simp [poll, pollEvents, hd]
  | succ k ih =>
    intro fuel i hk hlt
    cases fuel with
    | zero => simp [poll]
    | succ f =>
      have h0 : ¬ ((GetState i).pCurrentBufferContext = 0 ∧ (GetState i).BuffersQueued = 0) := by
        have := hlt 0 (Nat.succ_pos k)
        simpa [drained] using this
      have hk1 : drained (GetState (i + 1 + k)) := by
        have e : i + 1 + k = i + (k + 1) := by omega
        rw [e]; exact hk
      have hlt1 : ∀ j, j < k → ¬ drained (GetState (i + 1 + j)) := by
        intro j hj
        have e : i + 1 + j = i + (j + 1) := by omega
        rw [e]; exact hlt (j + 1) (by omega)
      have step := ih f (i + 1) hk1 hlt1
      rw [poll]
      simp only [h0, if_false, step]
      by_cases hkf : k < f
      · have : k + 1 < f + 1 := by omega
        simp [hkf, this, pollEvents]
      · have : ¬ (k + 1 < f + 1) := by omega
        simp [hkf, this]

/-- The poll loop never submits a buffer. -/
theorem poll_no_submit (GetState : Nat → XAUDIO2_VOICE_STATE) (source : Ptr) :
    ∀ (fuel i : Nat) (t : List Event), poll GetState source fuel i = some t →
      t.countP Event.isSubmit = 0 := by
  intro fuel
  induction fuel with
  | zero => intro i t h; simp [poll] at h
  | succ f ih =>
    intro i t h
    rw [poll] at h
    by_cases hd : (GetState i).pCurrentBufferContext = 0 ∧ (GetState i).BuffersQueued = 0
    · simp only [hd, and_self, if_true, Option.some.injEq] at h
      subst h
      simp [Event.isSubmit]
    · simp only [hd, if_false, Option.map_eq_some'] at h
      obtain ⟨rest, hrest, rfl⟩ := h
      have := ih (i + 1) rest hrest
      simp [List.countP_cons, Event.isSubmit, this]

/-- C4: on an open object, when `SubmitSourceBuffer` and `Start` succeed and the
states reported by the successive `GetState` polls are first drained at poll
number `k`, `xaudio2_object_write` has not returned within `k` loop
iterations and returns in iteration `k + 1`: it yields the `HRESULT` of
`Start` after one submit, one start and exactly `k + 1` polls, each preceded
by `Sleep(10)`; the object is unchanged. -/
theorem write_synchronous (fuel : Nat) (env : WriteEnv) (self : xaudio2_object)
    (data : Ptr) (bytes : Nat) (k : Nat)
    (_ho : isOpen self)
    (h1 : SUCCEEDED env.SubmitSourceBuffer = true)
    (h2 : SUCCEEDED env.Start = true)
    (hk : drained (env.GetState k))
    (hlt : ∀ i, i < k → ¬ drained (env.GetState i)) :
    xaudio2_object_write fuel env self data bytes =
      if k < fuel then
        some (env.Start, self,
          [Event.SubmitSourceBuffer self.source
             { AudioBytes := bytes % 2 ^ 32, pAudioData := data },
           Event.Start self.source] ++
          pollEvents env.GetState self.source 0 (k + 1))
      else none := by
  have hp := poll_eq env.GetState self.source k fuel 0 (by simpa using hk)
    (by intro j hj; simpa using hlt j hj)
  unfold xaudio2_object_write
  have h0 : SUCCEEDED S_OK = true := by decide
  simp only [h0, h1, h2, if_true, hp]
  by_cases hkf : k < fuel <;> simp [hkf]

/-- C4 at a concrete open object whose voice is first drained at the third
poll: two iterations are not enough, five are. -/
theorem write_synchronous_witness :
    isOpen sampleOpen ∧
    xaudio2_object_write 2 writeDrainsAtTwo sampleOpen 500 4096 = none ∧
    xaudio2_object_write 5 writeDrainsAtTwo sampleOpen 500 4096 =
      some (0, sampleOpen,
        [Event.SubmitSourceBuffer 3 { AudioBytes := 4096, pAudioData := 500 },
         Event.Start 3,
         Event.Sleep 10, Event.GetState 3 { BuffersQueued := 1 },
         Event.Sleep 10, Event.GetState 3 { BuffersQueued := 1 },
         Event.Sleep 10, Event.GetState 3 { }]) := by
  refine ⟨by decide, ?_, ?_⟩
  · rw [write_synchronous 2 writeDrainsAtTwo sampleOpen 500 4096 2 (by decide) (by decide)
      (by decide) (by decide) (by decide)]
    rfl
  · rw [write_synchronous 5 writeDrainsAtTwo sampleOpen 500 4096 2 (by decide) (by decide)
      (by decide) (by decide) (by decide)]
    rfl

/-- C5: on an open object, when `SubmitSourceBuffer` fails,
`xaudio2_object_write` returns that `HRESULT` having made no other call (no
`Start`, no sleep, no poll); when `SubmitSourceBuffer` succeeds and `Start`
fails, it returns the `HRESULT` of `Start` having made only these two calls;
the object is unchanged in both cases; and every call of `write` that returns
has submitted exactly one buffer. -/
theorem write_short_circuits (fuel : Nat) (env : WriteEnv) (self : xaudio2_object)
    (data : Ptr) (bytes : Nat) (_ho : isOpen self) :
    (FAILED env.SubmitSourceBuffer = true →
      xaudio2_object_write fuel env self data bytes =
        some (env.SubmitSourceBuffer, self,
          [Event.SubmitSourceBuffer self.source
             { AudioBytes := bytes % 2 ^ 32, pAudioData := data }])) ∧
    (SUCCEEDED env.SubmitSourceBuffer = true → FAILED env.Start = true →
      xaudio2_object_write fuel env self data bytes =
        some (env.Start, self,
          [Event.SubmitSourceBuffer self.source
             { AudioBytes := bytes % 2 ^ 32, pAudioData := data },
           Event.Start self.source])) ∧
    (∀ r, xaudio2_object_write fuel env self data bytes = some r →
      r.2.2.countP Event.isSubmit = 1) := by
  have h0 : SUCCEEDED S_OK = true := by decide
  refine ⟨?_, ?_, ?_⟩
  · intro h1
    have h1s : SUCCEEDED env.SubmitSourceBuffer = false := by
      simpa [FAILED_eq_not_SUCCEEDED] using h1
    unfold xaudio2_object_write
    simp [h0, h1s]
  · intro h1 h2
    have h2s : SUCCEEDED env.Start = false := by
      simpa [FAILED_eq_not_SUCCEEDED] using h2
    unfold xaudio2_object_write
    simp [h0, h1, h2s]
  · intro r hr
    unfold xaudio2_object_write at hr
    simp only [h0, if_true] at hr
    cases h1 : SUCCEEDED env.SubmitSourceBuffer with
    | false =>
      simp [h1] at hr
      subst hr
      simp [Event.isSubmit]
    | true =>
      cases h2 : SUCCEEDED env.Start with
      | false =>
        simp [h1, h2] at hr
        subst hr
        simp [List.countP_cons, Event.isSubmit]
      | true =>
        simp [h1, h2] at hr
        obtain ⟨t, ht, rfl⟩ := hr
        have := poll_no_submit env.GetState self.source fuel 0 t ht
        simp [List.countP_cons, Event.isSubmit, this]

/-- C5 at a concrete open object, once for each failing call. -/
theorem write_short_circuits_witness :
    isOpen sampleOpen ∧
    xaudio2_object_write 5 writeSubmitFails sampleOpen 500 4096 =
      some (-2147024809, sampleOpen,
        [Event.SubmitSourceBuffer 3 { AudioBytes := 4096, pAudioData := 500 }]) ∧
    xaudio2_object_write 5 writeStartFails sampleOpen 500 4096 =
      some (-2147467259, sampleOpen,
        [Event.SubmitSourceBuffer 3 { AudioBytes := 4096, pAudioData := 500 },
         Event.Start 3]) :=
  ⟨by decide,
   (write_short_circuits 5 writeSubmitFails sampleOpen 500 4096 (by decide)).1 (by decide),
   (write_short_circuits 5 writeStartFails sampleOpen 500 4096 (by decide)).2.1 (by decide)
     (by decide)⟩

/-! ## Invariants of reachable states -/

theorem replayFrom_append (t1 t2 : List Event) :
    ∀ live, replayFrom live (t1 ++ t2) =
      (replayFrom live t1).bind (fun l => replayFrom l t2) := by
  induction t1 with
  | nil => intro live; simp [replayFrom]
  | cons e es ih =>
    intro live
    simp only [List.cons_append, replayFrom]
    cases applyEvent live e with
    | none => simp
    | some l => simp [ih]

theorem filter_lifecycle_playback (t : List Event)
    (h : ∀ e ∈ t, Event.isPlayback e = true) : t.filter Event.lifecycle = [] := by
  rw [List.filter_eq_nil_iff]
  intro e he
  have hp := h e he
  cases e <;> simp_all [Event.isPlayback, Event.lifecycle]

theorem applyEvent_playback (live : List Handle) (e : Event)
    (h : Event.isPlayback e = true) : applyEvent live e = some live := by
  cases e <;> simp [Event.isPlayback] at h <;> rfl

theorem replayFrom_playback (t : List Event) :
    ∀ live, (∀ e ∈ t, Event.isPlayback e = true) → replayFrom live t = some live := by
  induction t with
  | nil => intro live _; simp [replayFrom]
  | cons e es ih =>
    intro live h
    have he : Event.isPlayback e = true := h e (List.mem_cons_self _ _)
    have hes : ∀ x ∈ es, Event.isPlayback x = true :=
      fun x hx => h x (List.mem_cons_of_mem _ hx)
    have ha : applyEvent live e = some live := applyEvent_playback live e he
    simp only [replayFrom, ha]
    exact ih live hes

theorem poll_playback (GetState : Nat → XAUDIO2_VOICE_STATE) (source : Ptr) :
    ∀ (fuel i : Nat) (t : List Event), poll GetState source fuel i = some t →
      ∀ e ∈ t, Event.isPlayback e = true := by
  intro fuel
  induction fuel with
  | zero => intro i t h; simp [poll] at h
  | succ f ih =>
    intro i t h
    rw [poll] at h
    by_cases hd : (GetState i).pCurrentBufferContext = 0 ∧ (GetState i).BuffersQueued = 0
    · simp only [hd, and_self, if_true, Option.some.injEq] at h
      subst h
      intro e he
      simp at he
      rcases he with rfl | rfl <;> rfl
    · simp only [hd, if_false, Option.map_eq_some'] at h
      obtain ⟨rest, hrest, rfl⟩ := h
      intro e he
      simp only [List.mem_append, List.mem_cons] at he
      rcases he with (rfl | rfl | hn) | hr
      · rfl
      · rfl
      · simp at hn
      · exact ih (i + 1) rest hrest e hr

/-- A returning `write` leaves the object as it was and makes playback calls
only. -/
theorem write_playback (fuel : Nat) (env : WriteEnv) (self : xaudio2_object)
    (data : Ptr) (bytes : Nat) (r : HRESULT × xaudio2_object × List Event)
    (h : xaudio2_object_write fuel env self data bytes = some r) :
    r.2.1 = self ∧ ∀ e ∈ r.2.2, Event.isPlayback e = true := by
  have h0 : SUCCEEDED S_OK = true := by decide
  unfold xaudio2_object_write at h
  simp only [h0, if_true] at h
  cases h1 : SUCCEEDED env.SubmitSourceBuffer with
  | false =>
    simp [h1] at h
    subst h
    simp [Event.isPlayback]
  | true =>
    cases h2 : SUCCEEDED env.Start with
    | false =>
      simp [h1, h2] at h
      subst h
      simp [Event.isPlayback]
    | true =>
      simp [h1, h2] at h
      obtain ⟨t, ht, rfl⟩ := h
      refine ⟨rfl, ?_⟩
      have hp := poll_playback env.GetState self.source fuel 0 t ht
      simpa [Event.isPlayback] using hp

theorem close_preserved (rest : List Handle) (self : xaudio2_object)
    (hs : closed self ∨ isOpen self) :
    Preserved rest self (xaudio2_object_close self) := by
  obtain ⟨v, a, m, s, f, d⟩ := self
  rw [close_eq]
  rcases hs with ⟨hm, hs, hf⟩ | ⟨hm, hs, hf⟩
  · simp only at hm hs hf
    subst hm hs hf
    simp [Preserved, closed, stored, replayFrom]
  · simp only [ne_eq] at hm hs hf
    simp [Preserved, closed, stored, replayFrom, applyEvent, release, hm, hs, hf,
      Event.lifecycle]

theorem open_preserved (rest : List Handle) (env : OpenEnv) (self : xaudio2_object)
    (format : audio_object_format) (rate channels : Nat) (hc : env.contract)
    (hs : closed self ∨ isOpen self) :
    Preserved rest self (xaudio2_object_open env self format rate channels).2 := by
  obtain ⟨v, a, m, s, f, d⟩ := self
  obtain ⟨⟨h1, p1⟩, ⟨h2, p2⟩, ⟨h3, p3⟩⟩ := env
  obtain ⟨c1, c2, c3⟩ := hc
  simp only [createContract] at c1 c2 c3
  rcases hs with ⟨hm, hs, hf⟩ | ⟨hm, hs, hf⟩
  · simp only at hm hs hf
    subst hm hs hf
    unfold xaudio2_object_open open_error
    simp only [close_eq, FAILED_eq_not_SUCCEEDED]
    cases e1 : SUCCEEDED h1 with
    | false =>
      have q1 : p1 = 0 := by simpa [e1] using c1
      subst q1
      simp [Preserved, closed, stored, replayFrom, applyEvent, acquire, e1, Event.lifecycle]
    | true =>
      have q1 : p1 ≠ 0 := c1.mp e1
      cases e2 : SUCCEEDED h2 with
      | false =>
        have q2 : p2 = 0 := by simpa [e2] using c2
        subst q2
        simp [Preserved, closed, stored, replayFrom, applyEvent, acquire, release, e1, e2, q1,
          Event.lifecycle]
      | true =>
        have q2 : p2 ≠ 0 := c2.mp e2
        cases e3 : SUCCEEDED h3 with
        | false =>
          have q3 : p3 = 0 := by simpa [e3] using c3
          subst q3
          simp [Preserved, closed, stored, replayFrom, applyEvent, acquire, release, e1, e2, e3,
            q1, q2, Event.lifecycle]
        | true =>
          have q3 : p3 ≠ 0 := c3.mp e3
          simp [Preserved, closed, isOpen, stored, replayFrom, applyEvent, acquire, e1, e2, e3,
            q1, q2, q3, Event.lifecycle]
  · simp only [ne_eq] at hm hs hf
    unfold xaudio2_object_open
    simp [Preserved, isOpen, stored, replayFrom, hm, hs, hf]

theorem step_preserved (rest : List Handle) (self : xaudio2_object) (op : Op)
    (r : xaudio2_object × List Event) (hc : op.contract) (hs : closed self ∨ isOpen self)
    (h : step self op = some r) : Preserved rest self r := by
  cases op with
  | Open env format rate channels =>
    simp only [step, Option.some.injEq] at h
    subst h
    exact open_preserved rest env self format rate channels hc hs
  | Close =>
    simp only [step, Option.some.injEq] at h
    subst h
    exact close_preserved rest self hs
  | Write fuel env data bytes =>
    simp only [step, Option.map_eq_some'] at h
    obtain ⟨w, hw, rfl⟩ := h
    obtain ⟨hself, hplay⟩ := write_playback fuel env self data bytes w hw
    refine ⟨?_, ?_, ?_, ?_⟩
    · simpa [hself] using hs
    · simp [hself]
    · simp only [hself]
      exact replayFrom_playback w.2.2 _ hplay
    · exact filter_lifecycle_playback w.2.2 hplay
  | Drain =>
    simp only [step, xaudio2_object_drain, Option.some.injEq] at h
    subst h
    exact ⟨hs, rfl, by simp [replayFrom], by simp⟩
  | Flush =>
    simp only [step, xaudio2_object_flush, Option.some.injEq] at h
    subst h
    exact ⟨hs, rfl, by simp [replayFrom], by simp⟩

theorem run_preserved (rest : List Handle) (ops : List Op) :
    ∀ (self : xaudio2_object) (r : xaudio2_object × List Event),
      (∀ op ∈ ops, op.contract) → (closed self ∨ isOpen self) →
      run self ops = some r → Preserved rest self r := by
  induction ops with
  | nil =>
    intro self r _ hs h
    simp only [run, Option.some.injEq] at h
    subst h
    exact ⟨hs, rfl, by simp [replayFrom], by simp⟩
  | cons op ops ih =>
    intro self r hc hs h
    simp only [run] at h
    cases h1 : step self op with
    | none => simp [h1] at h
    | some r1 =>
      simp only [h1] at h
      cases h2 : run r1.1 ops with
      | none => simp [h2] at h
      | some r2 =>
        simp only [h2, Option.some.injEq] at h
        subst h
        obtain ⟨a1, a2, a3, a4⟩ :=
          step_preserved rest self op r1 (hc op (List.mem_cons_self _ _)) hs h1
        obtain ⟨b1, b2, b3, b4⟩ :=
          ih r1.1 r2 (fun o ho => hc o (List.mem_cons_of_mem _ ho)) a1 h2
        refine ⟨b1, b2.trans a2, ?_, ?_⟩
        · simp only [replayFrom_append, a3, Option.some_bind]
          exact b3
        · simp [List.filter_append, a4, b4]

/-- What `create_xaudio2_object` establishes when it returns an object. -/
theorem create_some (env : CreateEnv) (device application_name description : Ptr)
    (self : xaudio2_object) (t : List Event)
    (h : create_xaudio2_object env device application_name description = (some self, t)) :
    closed self ∧ self.audio = env.XAudio2Create.2 ∧ self.audio ≠ 0 ∧
      self.vtable = xaudio2_vtable ∧
      replay t = some [Handle.engine self.audio] ∧
      t.filter Event.lifecycle =
        [Event.CoInitialize, Event.XAudio2Create env.XAudio2Create.1 self.audio] := by
  obtain ⟨⟨hr, audio⟩, m, w⟩ := env
  unfold create_xaudio2_object at h
  simp only [FAILED_eq_not_SUCCEEDED] at h
  cases e : SUCCEEDED hr with
  | false => simp [e] at h
  | true =>
    by_cases ha : audio = 0
    · simp [e, ha] at h
    · by_cases hm : m = 0
      · simp [e, ha, hm] at h
      · simp only [e, ha, hm, Bool.not_true, Bool.false_eq_true, or_self, if_false,
          Prod.mk.injEq, Option.some.injEq] at h
        obtain ⟨rfl, rfl⟩ := h
        by_cases hd : device = 0
        · simp [closed, xaudio2_vtable, replay, replayFrom, applyEvent, acquire, e, ha, hd,
            Event.lifecycle]
        · simp [closed, xaudio2_vtable, replay, replayFrom, applyEvent, acquire, e, ha, hd,
            Event.lifecycle]

theorem open_no_lifecycle (env : OpenEnv) (self : xaudio2_object)
    (format : audio_object_format) (rate channels : Nat) :
    (xaudio2_object_open env self format rate channels).2.1.audio = self.audio ∧
    (xaudio2_object_open env self format rate channels).2.2.filter Event.lifecycle = [] := by
  unfold xaudio2_object_open open_error
  simp only [close_eq]
  split_ifs <;> simp [Event.lifecycle, List.filter_append]

theorem close_no_lifecycle (self : xaudio2_object) :
    (xaudio2_object_close self).1.audio = self.audio ∧
    (xaudio2_object_close self).2.filter Event.lifecycle = [] := by
  rw [close_eq]
  refine ⟨rfl, ?_⟩
  simp only [List.filter_append]
  split_ifs <;> simp [Event.lifecycle]

theorem step_no_lifecycle (self : xaudio2_object) (op : Op)
    (r : xaudio2_object × List Event) (h : step self op = some r) :
    r.1.audio = self.audio ∧ r.2.filter Event.lifecycle = [] := by
  cases op with
  | Open env format rate channels =>
    simp only [step, Option.some.injEq] at h
    subst h
    exact open_no_lifecycle env self format rate channels
  | Close =>
    simp only [step, Option.some.injEq] at h
    subst h
    exact close_no_lifecycle self
  | Write fuel env data bytes =>
    simp only [step, Option.map_eq_some'] at h
    obtain ⟨w, hw, rfl⟩ := h
    obtain ⟨hself, hplay⟩ := write_playback fuel env self data bytes w hw
    exact ⟨by simp [hself], filter_lifecycle_playback w.2.2 hplay⟩
  | Drain =>
    simp only [step, xaudio2_object_drain, Option.some.injEq] at h
    subst h
    exact ⟨rfl, by simp⟩
  | Flush =>
    simp only [step, xaudio2_object_flush, Option.some.injEq] at h
    subst h
    exact ⟨rfl, by simp⟩

theorem run_no_lifecycle (ops : List Op) :
    ∀ (self : xaudio2_object) (r : xaudio2_object × List Event),
      run self ops = some r → r.1.audio = self.audio ∧ r.2.filter Event.lifecycle = [] := by
  induction ops with
  | nil =>
    intro self r h
    simp only [run, Option.some.injEq] at h
    subst h
    exact ⟨rfl, by simp⟩
  | cons op ops ih =>
    intro self r h
    simp only [run] at h
    cases h1 : step self op with
    | none => simp [h1] at h
    | some r1 =>
      simp only [h1] at h
      cases h2 : run r1.1 ops with
      | none => simp [h2] at h
      | some r2 =>
        simp only [h2, Option.some.injEq] at h
        subst h
        obtain ⟨a1, a2⟩ := step_no_lifecycle self op r1 h1
        obtain ⟨b1, b2⟩ := ih r1.1 r2 h2
        exact ⟨b1.trans a1, by simp [List.filter_append, a2, b2]⟩

/-! ## C10: the two-state machine -/

/-- C10: when every native create call made by an `open` leaves a non-null
handle exactly when it succeeds, every state reached from
`create_xaudio2_object` by `open`, `close`, `write`, `drain` and `flush` calls
has `mastering`, `source` and `format` all null or all non-null; the trace up
to that state never releases a handle that is not live, and the handles live
after it are exactly the voice and wave-format handles stored in the fields
(and the engine); `drain` and `flush` return `S_OK`, make no native call and
leave the state unchanged. -/
theorem two_state_machine (env : CreateEnv) (device application_name description : Ptr)
    (self0 : xaudio2_object) (t0 : List Event) (ops : List Op)
    (self : xaudio2_object) (t : List Event)
    (hcreate : create_xaudio2_object env device application_name description = (some self0, t0))
    (hcontract : ∀ op ∈ ops, op.contract)
    (hrun : run self0 ops = some (self, t)) :
    (closed self ∨ isOpen self) ∧
    replay (t0 ++ t) = some (stored self ++ [Handle.engine self.audio]) ∧
    (∀ s : xaudio2_object,
      xaudio2_object_drain s = (S_OK, s, []) ∧ xaudio2_object_flush s = (S_OK, s, [])) := by
  obtain ⟨c1, -, -, -, c5, -⟩ :=
    create_some env device application_name description self0 t0 hcreate
  obtain ⟨p1, p2, p3, -⟩ :=
    run_preserved [Handle.engine self0.audio] ops self0 (self, t) hcontract (Or.inl c1) hrun
  have hst : stored self0 = [] := by
    obtain ⟨hm, hs, hf⟩ := c1
    simp [stored, hm, hs, hf]
  refine ⟨p1, ?_, fun s => ⟨rfl, rfl⟩⟩
  simp only at p2 p3
  rw [replay, replayFrom_append]
  rw [replay] at c5
  rw [c5, Option.some_bind]
  rw [hst, List.nil_append] at p3
  rw [p3, p2]

/-- C10 on a concrete session that ends in the open state. -/
theorem two_state_machine_witness :
    create_xaudio2_object createOk 9 0 0 = (some sampleClosed, sampleCreateTrace) ∧
    (∀ op ∈ sampleSession, op.contract) ∧
    run sampleClosed sampleSession = some (sampleOpen, sampleSessionTrace) ∧
    isOpen sampleOpen ∧
    replay (sampleCreateTrace ++ sampleSessionTrace) =
      some [Handle.voice 3, Handle.wfmt 2, Handle.voice 1, Handle.engine 100] := by
  have hcreate : create_xaudio2_object createOk 9 0 0 = (some sampleClosed, sampleCreateTrace) := by
    decide
  have hcontract : ∀ op ∈ sampleSession, op.contract := by decide
  have hrun : run sampleClosed sampleSession = some (sampleOpen, sampleSessionTrace) := by
    decide
  have h := two_state_machine createOk 9 0 0 sampleClosed sampleCreateTrace sampleSession
    sampleOpen sampleSessionTrace hcreate hcontract hrun
  exact ⟨hcreate, hcontract, hrun, by decide, h.2.1⟩

/-! ## C9: `xaudio2_object_destroy` -/

/-- C9 as stated fails: create an object, open it successfully, destroy it.
The mastering voice `1`, the wave format `2` and the source voice `3` acquired
by `open` are still live after `xaudio2_object_destroy`, which only released
the engine. -/
theorem destroy_leaves_open_voices_live :
    create_xaudio2_object createOk 9 0 0 = (some sampleClosed, sampleCreateTrace) ∧
    run sampleClosed [Op.Open envAllOk 3 44100 2] = some (sampleOpen, sampleOpenTrace) ∧
    xaudio2_object_destroy sampleOpen =
      [Event.Release 100, Event.free 7, Event.free_self, Event.CoUninitialize] ∧
    replay (sampleCreateTrace ++ sampleOpenTrace ++ xaudio2_object_destroy sampleOpen) =
      some [Handle.voice 3, Handle.wfmt 2, Handle.voice 1] ∧
    replay (sampleCreateTrace ++ sampleOpenTrace ++ xaudio2_object_destroy sampleOpen) ≠
      some [] := by
  decide

/-- C9, amended: in every state reached from `create_xaudio2_object` by `open`,
`close`, `write`, `drain` and `flush` calls, `xaudio2_object_destroy` releases
the engine, frees the device name and the object and calls `CoUninitialize`,
and nothing else; over the whole life of the object the life-cycle calls are
exactly one `CoInitialize`, the engine creation, one release of that engine
and one `CoUninitialize`, in this order; and, when every native create call
of an `open` leaves a non-null handle exactly when it succeeds, the handles
live after destroy are exactly the voice and wave-format handles the object
stores at that moment: none when the object is closed. -/
theorem destroy_releases_engine_only (env : CreateEnv)
    (device application_name description : Ptr)
    (self0 : xaudio2_object) (t0 : List Event) (ops : List Op)
    (self : xaudio2_object) (t : List Event)
    (hcreate : create_xaudio2_object env device application_name description = (some self0, t0))
    (hrun : run self0 ops = some (self, t)) :
    xaudio2_object_destroy self =
      [Event.Release self.audio, Event.free self.devicename, Event.free_self,
       Event.CoUninitialize] ∧
    (t0 ++ t ++ xaudio2_object_destroy self).filter Event.lifecycle =
      [Event.CoInitialize, Event.XAudio2Create env.XAudio2Create.1 self.audio,
       Event.Release self.audio, Event.CoUninitialize] ∧
    ((∀ op ∈ ops, op.contract) →
      replay (t0 ++ t ++ xaudio2_object_destroy self) = some (stored self) ∧
      (closed self → replay (t0 ++ t ++ xaudio2_object_destroy self) = some [])) := by
  obtain ⟨c1, -, -, -, c5, c6⟩ :=
    create_some env device application_name description self0 t0 hcreate
  obtain ⟨n1, n2⟩ := run_no_lifecycle ops self0 (self, t) hrun
  simp only at n1 n2
  refine ⟨rfl, ?_, ?_⟩
  · simp [List.filter_append, c6, n2, n1, xaudio2_object_destroy, Event.lifecycle]
  · intro hcontract
    obtain ⟨-, p2, p3, -⟩ :=
      run_preserved [Handle.engine self0.audio] ops self0 (self, t) hcontract (Or.inl c1) hrun
    have hst : stored self0 = [] := by
      obtain ⟨hm, hs, hf⟩ := c1
      simp [stored, hm, hs, hf]
    simp only at p2 p3
    rw [hst, List.nil_append] at p3
    rw [replay] at c5
    have hd : replayFrom (stored self ++ [Handle.engine self.audio])
        (xaudio2_object_destroy self) = some (stored self) := by
      have hne : Handle.engine self.audio ∉ stored self := by
        unfold stored
        split_ifs <;> simp
      simp [xaudio2_object_destroy, replayFrom, applyEvent, release,
        List.erase_append_right _ hne]
    have hall : replay (t0 ++ t ++ xaudio2_object_destroy self) = some (stored self) := by
      rw [replay, replayFrom_append, replayFrom_append, c5, Option.some_bind, p3,
        Option.some_bind, ← p2, hd]
    refine ⟨hall, ?_⟩
    intro hcl
    obtain ⟨hm, hs, hf⟩ := hcl
    rw [hall]
    simp [stored, hm, hs, hf]

/-- C9, amended, on a concrete session that closes the object before it is
destroyed. -/
theorem destroy_releases_engine_only_witness :
    create_xaudio2_object createOk 9 0 0 = (some sampleClosed, sampleCreateTrace) ∧
    run sampleClosed (sampleSession ++ [Op.Close]) =
      some (sampleClosed, sampleSessionTrace ++ sampleCloseTrace) ∧
    (sampleCreateTrace ++ (sampleSessionTrace ++ sampleCloseTrace) ++
        xaudio2_object_destroy sampleClosed).filter Event.lifecycle =
      [Event.CoInitialize, Event.XAudio2Create 0 100, Event.Release 100,
       Event.CoUninitialize] ∧
    replay (sampleCreateTrace ++ (sampleSessionTrace ++ sampleCloseTrace) ++
        xaudio2_object_destroy sampleClosed) = some [] := by
  have hcreate : create_xaudio2_object createOk 9 0 0 = (some sampleClosed, sampleCreateTrace) := by
    decide
  have hrun : run sampleClosed (sampleSession ++ [Op.Close]) =
      some (sampleClosed, sampleSessionTrace ++ sampleCloseTrace) := by
    decide
  have h := destroy_releases_engine_only createOk 9 0 0 sampleClosed sampleCreateTrace
    (sampleSession ++ [Op.Close]) sampleClosed (sampleSessionTrace ++ sampleCloseTrace)
    hcreate hrun
  exact ⟨hcreate, hrun, h.2.1, (h.2.2 (by decide)).2 (by decide)⟩

/-! ## C7: `write` does not check its source voice -/

/-- C7 fails on the code: on a freshly created, never opened object the
source voice is null, and `xaudio2_object_write` calls `SubmitSourceBuffer`,
`Start` and `GetState` on it without a check. -/
theorem write_before_open_calls_null_source :
    create_xaudio2_object createOk 9 0 0 = (some sampleClosed, sampleCreateTrace) ∧
    sampleClosed.source = 0 ∧
    run sampleClosed [Op.Write 5 writeDrainsAtTwo 500 4096] =
      some (sampleClosed, sampleWriteTrace 0) ∧
    (sampleWriteTrace 0).any Event.onNull = true ∧
    (sampleWriteTrace 0).filter Event.onNull =
      [Event.SubmitSourceBuffer 0 { AudioBytes := 4096, pAudioData := 500 },
       Event.Start 0,
       Event.GetState 0 { BuffersQueued := 1 },
       Event.GetState 0 { BuffersQueued := 1 },
       Event.GetState 0 { }] := by
  decide

/-! ## C8: `create_xaudio2_object` on allocation failure -/

/-- C8 fails on the code: when the engine has been created and `malloc` returns
`NULL`, `create_xaudio2_object` returns `NULL` at once; the engine `100` is
never released and stays live, and `CoUninitialize` is not called.  The
sibling failure path (engine creation fails, leaving an engine pointer)
releases the engine and calls `CoUninitialize`. -/
theorem create_malloc_failure_leaks_engine :
    create_xaudio2_object createNoMemory 9 0 0 =
      (none, [Event.CoInitialize, Event.XAudio2Create 0 100, Event.malloc 0]) ∧
    replay (create_xaudio2_object createNoMemory 9 0 0).2 = some [Handle.engine 100] ∧
    (create_xaudio2_object createNoMemory 9 0 0).2.count Event.CoUninitialize = 0 ∧
    create_xaudio2_object createEngineFails 9 0 0 =
      (none, [Event.CoInitialize, Event.XAudio2Create (-2147467259) 100, Event.Release 100,
        Event.CoUninitialize]) := by
  decide

end XAudio2
